import Mathlib

/-!
# Verification of the jalan map state-synchronization engine

Shallow embedding of the interactive map subsystem of the `jalan`
road-damage dashboard: the filter engine (`useFilters`), search recency
(`useRoadSearch`), geometry helpers (`mapHelpers.ts`), the road-scoped
report loader (`useReports`), and the interaction state machine of the
admin `Maps` page.  Each definition is translated from the TypeScript
source; theorems at the end of the file settle the specification claims.
-/

namespace Jalan

/-- A JavaScript value as it appears in road rows and `props` objects:
a string, a number (modelled as an integer; the numeric values never
matter to the verified properties), a boolean, or `null`. -/
inductive JVal where
  | str (s : String)
  | num (n : Int)
  | boolean (b : Bool)
  | jnull
deriving DecidableEq, Repr

/-- The `String(v)` coercion for the modelled JavaScript values. -/
def JVal.toStr : JVal → String
  | .str s => s
  | .num n => toString n
  | .boolean b => if b then "true" else "false"
  | .jnull => "null"

/-- A GeoJSON line geometry: `LineString` or `MultiLineString`.
Coordinate pairs are modelled as integer pairs; their values are
irrelevant to every verified property. -/
inductive Geom where
  | lineString (coordinates : List (Int × Int))
  | multiLineString (coordinates : List (List (Int × Int)))
deriving DecidableEq, Repr

/-- Type `RoadRow` from `maps/types.ts`: one road entity as loaded from the
store.  `props` is the free-form OSM attribute object, modelled as a
key/value list (later entries shadow earlier ones, as JS spread does). -/
structure RoadRow where
  id : String
  geom : Option Geom
  highway : Option String
  name : Option String
  props : Option (List (String × JVal))
  osm_id : Option String
  kota : Option String
  kecamatan : Option String
  kelurahan : Option String
  tipe_jalan : Option String
  rt : Option Int
  rw : Option Int
  lingkungan : Option String
  condition : Option String
  status : Option String
  length : Option Int
  width : Option Int
deriving DecidableEq, Repr

/-- Function `normalizeId` from `mapHelpers.ts`: ids are normalized to string
form before any comparison.  Road ids are already strings in the model,
so this is the identity; it is kept so uses mirror the source. -/
def normalizeId (id : String) : String := id

/-- Last-wins lookup in a JS object modelled as a key/value list
(object literal and spread semantics: a later entry shadows earlier). -/
def propLookup (props : List (String × JVal)) (k : String) : Option JVal :=
  ((props.filter (fun p => p.1 = k)).getLast?).map (fun p => p.2)

/-- A JS `??` step on an object member: an explicit `null` value behaves
like a missing one. -/
def jcoalesce (v : Option JVal) : Option JVal :=
  match v with
  | some .jnull => none
  | x => x

/-! ## Filter engine (`useFilters`, `src/unnamed/part_008`) -/

/-- Record `RoadFilters`: one selected-value list per filterable dimension. -/
structure RoadFilters where
  condition : List String
  status : List String
  kelurahan : List String
  jenisJalan : List String
  tipeJalan : List String
  rt : List String
  rw : List String
deriving DecidableEq, Repr

/-- Function `createInitialFilters()`: every dimension list empty. -/
def createInitialFilters : RoadFilters :=
  ⟨[], [], [], [], [], [], []⟩

/-- The whitespace characters relevant to `trim` and `\s` on the data
this system sees. -/
def isWsChar (c : Char) : Bool :=
  c == ' ' || c == '\t' || c == '\n' || c == '\r'

/-- JS `String.prototype.trim`: strip leading and trailing whitespace.
(Structurally recursive so that concrete inputs evaluate in the
kernel.) -/
def jsTrim (s : String) : String :=
  ⟨((s.data.dropWhile isWsChar).reverse.dropWhile isWsChar).reverse⟩

/-- ASCII lowercasing of one character (the data normalized here is
ASCII). -/
def lowerChar (c : Char) : Char :=
  if 'A' ≤ c ∧ c ≤ 'Z' then Char.ofNat (c.toNat + 32) else c

/-- JS `String.prototype.toLowerCase` on the ASCII data in play. -/
def jsToLower (s : String) : String :=
  ⟨s.data.map lowerChar⟩

/-- Function `normalizeFilterValue`: `String(value ?? '').trim().toLowerCase()`. -/
def normalizeFilterValue (value : Option JVal) : String :=
  jsToLower (jsTrim (match value with
    | none => ""
    | some v => v.toStr))

/-- Collapse every maximal run of whitespace to a single space
(the `replace(/\s+/g, ' ')` step), tracking whether the previous kept
character was part of a whitespace run. -/
def squeezeWs : Bool → List Char → List Char
  | _, [] => []
  | prevWs, c :: rest =>
    if isWsChar c then
      if prevWs then squeezeWs true rest
      else ' ' :: squeezeWs true rest
    else c :: squeezeWs false rest

/-- String form of `squeezeWs`. -/
def collapseWs (s : String) : String :=
  ⟨squeezeWs false s.data⟩

/-- Predicate `matchesSelected`: empty selection matches everything; a falsy
candidate (null or empty string) fails a non-empty selection. -/
def matchesSelected (selected : List String) (candidate : Option String) : Bool :=
  if selected.isEmpty then true
  else
    match candidate with
    | none => false
    | some c => if c = "" then false else selected.contains c

/-- Function `normalizeCandidate`: normalized value, with `''` collapsed to null
(the `normalized || null` idiom). -/
def normalizeCandidate (candidate : Option JVal) : Option String :=
  let normalized := normalizeFilterValue candidate
  if normalized = "" then none else some normalized

/-- The canonical condition option values (`CONDITION_VALUES`). -/
def CONDITION_VALUES : List String :=
  ["good", "minor damage", "severe damage"]

/-- Function `normalizeConditionValue`: separators (`_`, `-`) collapsed to
spaces, whitespace runs collapsed, and the cleaned string used only if
it is a canonical condition value. -/
def normalizeConditionValue (value : Option JVal) : Option String :=
  match normalizeCandidate value with
  | none => none
  | some normalized =>
    let cleaned :=
      jsTrim (collapseWs ⟨normalized.data.map (fun c =>
        if c = '_' ∨ c = '-' then ' ' else c)⟩)
    if CONDITION_VALUES.contains cleaned then some cleaned
    else some normalized

/-- Function `getRoadType`: the `tipe_jalan` column, falling back to the
`tipe_jalan` then `road_type` members of the `props` object. -/
def getRoadType (road : RoadRow) : Option JVal :=
  match road.tipe_jalan with
  | some t => some (.str t)
  | none =>
    match road.props with
    | none => none
    | some props =>
      match jcoalesce (propLookup props "tipe_jalan") with
      | some v => some v
      | none =>
        match jcoalesce (propLookup props "road_type") with
        | some v => some v
        | none => none

/-- One entry of `normalizedRoads`: the road plus its per-dimension
normalized candidates. -/
structure NormalizedRoad where
  road : RoadRow
  condition : Option String
  status : Option String
  kelurahan : Option String
  jenisJalan : Option String
  tipeJalan : Option String
  rt : Option String
  rw : Option String
deriving DecidableEq, Repr

/-- The `normalizedRoads` mapping for one road. -/
def normalizeRoad (road : RoadRow) : NormalizedRoad :=
  { road := road
    condition := normalizeConditionValue (road.condition.map .str)
    status := normalizeCandidate (road.status.map .str)
    kelurahan := normalizeCandidate (road.kelurahan.map .str)
    jenisJalan := normalizeCandidate (road.highway.map .str)
    tipeJalan := normalizeCandidate (getRoadType road)
    rt := normalizeCandidate (road.rt.map (fun n => .str (toString n)))
    rw := normalizeCandidate (road.rw.map (fun n => .str (toString n))) }

/-- The conjunction of the seven per-dimension predicates used by
`filteredRoads`. -/
def roadMatchesFilters (filters : RoadFilters) (e : NormalizedRoad) : Bool :=
  matchesSelected filters.condition e.condition &&
  matchesSelected filters.status e.status &&
  matchesSelected filters.kelurahan e.kelurahan &&
  matchesSelected filters.jenisJalan e.jenisJalan &&
  matchesSelected filters.tipeJalan e.tipeJalan &&
  matchesSelected filters.rt e.rt &&
  matchesSelected filters.rw e.rw

/-- Function `filteredRoads`: normalize every road, keep those matching every
dimension, and project back to the raw rows. -/
def filteredRoads (roads : List RoadRow) (filters : RoadFilters) : List RoadRow :=
  ((roads.map normalizeRoad).filter (roadMatchesFilters filters)).map (·.road)

/-- Flag `hasActiveFilters`: some dimension list is non-empty. -/
def hasActiveFilters (filters : RoadFilters) : Bool :=
  !filters.condition.isEmpty || !filters.status.isEmpty ||
  !filters.kelurahan.isEmpty || !filters.jenisJalan.isEmpty ||
  !filters.tipeJalan.isEmpty || !filters.rt.isEmpty || !filters.rw.isEmpty

/-- The seven filterable dimensions. -/
inductive Dim where
  | condition | status | kelurahan | jenisJalan | tipeJalan | rt | rw
deriving DecidableEq, Repr

/-- The selected-value list of a dimension. -/
def dimSelected (d : Dim) (filters : RoadFilters) : List String :=
  match d with
  | .condition => filters.condition
  | .status => filters.status
  | .kelurahan => filters.kelurahan
  | .jenisJalan => filters.jenisJalan
  | .tipeJalan => filters.tipeJalan
  | .rt => filters.rt
  | .rw => filters.rw

/-- The raw value a road feeds to a dimension's normalizer. -/
def dimRaw (d : Dim) (road : RoadRow) : Option JVal :=
  match d with
  | .condition => road.condition.map .str
  | .status => road.status.map .str
  | .kelurahan => road.kelurahan.map .str
  | .jenisJalan => road.highway.map .str
  | .tipeJalan => getRoadType road
  | .rt => road.rt.map (fun n => .str (toString n))
  | .rw => road.rw.map (fun n => .str (toString n))

/-- The normalized candidate a road presents to a dimension's
predicate. -/
def dimCandidate (d : Dim) (road : RoadRow) : Option String :=
  match d with
  | .condition => (normalizeRoad road).condition
  | .status => (normalizeRoad road).status
  | .kelurahan => (normalizeRoad road).kelurahan
  | .jenisJalan => (normalizeRoad road).jenisJalan
  | .tipeJalan => (normalizeRoad road).tipeJalan
  | .rt => (normalizeRoad road).rt
  | .rw => (normalizeRoad road).rw

/-! ### Filter-engine lemmas -/

@[simp] theorem normalizeRoad_road (r : RoadRow) :
    (normalizeRoad r).road = r := rfl

theorem filteredRoads_eq_filter (roads : List RoadRow) (filters : RoadFilters) :
    filteredRoads roads filters =
      roads.filter (fun r => roadMatchesFilters filters (normalizeRoad r)) := by
  induction roads with
  | nil => rfl
  | cons r rest ih =>
    simp only [filteredRoads, List.map_cons, List.filter_cons] at *
    by_cases h : roadMatchesFilters filters (normalizeRoad r)
    · simp [h, ih]
    · simp [h, ih]

theorem matchesSelected_nil (candidate : Option String) :
    matchesSelected [] candidate = true := rfl

theorem normalizeConditionValue_eq_none (value : Option JVal) :
    normalizeConditionValue value = none ↔ normalizeCandidate value = none := by
  unfold normalizeConditionValue
  cases h : normalizeCandidate value with
  | none => simp
  | some nv =>
    simp only
    constructor
    · intro hcontra
      split at hcontra <;> simp_all
    · intro hcontra
      exact absurd hcontra (by simp)

theorem dimCandidate_eq_none (d : Dim) (road : RoadRow)
    (h : normalizeFilterValue (dimRaw d road) = "") :
    dimCandidate d road = none := by
  cases d <;>
    simp only [dimCandidate, dimRaw, normalizeRoad] at h ⊢ <;>
    first
      | (rw [normalizeConditionValue_eq_none]; simp [normalizeCandidate, h])
      | simp [normalizeCandidate, h]

theorem matchesSelected_none_of_ne_nil (selected : List String)
    (h : selected ≠ []) : matchesSelected selected none = false := by
  unfold matchesSelected
  simp [List.isEmpty_iff, h]

theorem roadMatchesFilters_false (filters : RoadFilters) (d : Dim) (r : RoadRow)
    (hc : dimCandidate d r = none) (hs : dimSelected d filters ≠ []) :
    roadMatchesFilters filters (normalizeRoad r) = false := by
  have hms := matchesSelected_none_of_ne_nil (dimSelected d filters) hs
  cases d <;>
    · simp only [dimSelected] at hms
      simp only [dimCandidate] at hc
      simp [roadMatchesFilters, hc, hms]

/-! ## Search recency (`useRoadSearch`, `src/unnamed/part_008`) -/

/-- A persisted recent-search entry. -/
structure RecentSearchItem where
  id : String
  label : String
  secondary : String
deriving DecidableEq, Repr

/-- Function `getRoadPrimaryLabel`: name, fallback highway, fallback "Ruas id". -/
def getRoadPrimaryLabel (road : RoadRow) : String :=
  road.name.getD (road.highway.getD ("Ruas " ++ road.id))

/-- Function `getRoadSecondaryLabel`: highway, fallback kecamatan, kota, "-". -/
def getRoadSecondaryLabel (road : RoadRow) : String :=
  road.highway.getD (road.kecamatan.getD (road.kota.getD "-"))

/-- The `{id, label, secondary}` entry `addRecentSearch` derives from a
road. -/
def recentEntry (road : RoadRow) : RecentSearchItem :=
  { id := normalizeId road.id
    label := getRoadPrimaryLabel road
    secondary := getRoadSecondaryLabel road }

/-- Function `addRecentSearch` (the same update as `updateRecentSearches` in
`Maps.tsx`): drop prior entries with the new id, prepend, cap at 3. -/
def addRecentSearch (road : RoadRow) (prev : List RecentSearchItem) :
    List RecentSearchItem :=
  let entry := recentEntry road
  let filtered := prev.filter (fun item => item.id ≠ entry.id)
  (entry :: filtered).take 3

/-! ## Geometry helpers (`mapHelpers.ts`) -/

/-- Function `extractCoordinates`: flatten a line geometry to one coordinate
sequence; null geometry yields the empty sequence.  (The JS
`.filter(Boolean)` drops only null array slots, which the typed model
cannot contain.) -/
def extractCoordinates (geom : Option Geom) : List (Int × Int) :=
  match geom with
  | none => []
  | some (.lineString coordinates) => coordinates
  | some (.multiLineString coordinates) => coordinates.flatten

@[simp] theorem extractCoordinates_none : extractCoordinates none = [] := rfl

/-- One GeoJSON feature produced by `buildFeatureCollection`. -/
structure Feature where
  id : String
  geometry : Geom
  properties : List (String × JVal)
deriving DecidableEq, Repr

/-- The feature's `properties` object literal: `id`, `highway`, `name`,
`tipe_jalan`, then the spread of `r.props ?? {}` (which, being last,
shadows earlier keys). -/
def buildProperties (r : RoadRow) : List (String × JVal) :=
  [("id", .str (normalizeId r.id)),
   ("highway", r.highway.elim .jnull .str),
   ("name", r.name.elim .jnull .str),
   ("tipe_jalan", r.tipe_jalan.elim .jnull .str)]
    ++ r.props.getD []

/-- Function `buildFeatureCollection`: drop geometry-less roads, emit one feature
per remaining row (the features array of the returned collection). -/
def buildFeatureCollection (roads : List RoadRow) : List Feature :=
  roads.filterMap (fun r =>
    r.geom.map (fun g =>
      { id := normalizeId r.id
        geometry := g
        properties := buildProperties r }))

/-! ## Report loader (`useReports.ts` and the `loadReports` effect in
`Maps.tsx`) -/

/-- Type `ReportRow` from `maps/types.ts`. -/
structure ReportRow where
  id : Int
  user_id : Option Int
  latitude : Option Int
  longitude : Option Int
  kerusakan_level : Option String
  deskripsi : Option String
  status : Option String
  foto : Option String
  kontak_pelapor : Option String
  created_at : Option String
  updated_at : Option String
  road_id : Option String
deriving DecidableEq, Repr

/-- The `activeReports` filter applied to a successful response:
`(report.status ?? 'pending') !== 'done'`. -/
def activeReports (data : List ReportRow) : List ReportRow :=
  data.filter (fun report => (report.status.getD "pending") ≠ "done")

/-- The loader-scoped state triple set by the effect. -/
structure LoaderState where
  reports : List ReportRow
  reportsError : Option String
  reportsLoading : Bool
deriving DecidableEq, Repr

/-- The error message the effect stores on a failed fetch. -/
def REPORTS_ERROR_MESSAGE : String := "Gagal memuat laporan aktif."

/-- How a resolved fetch response is applied to loader state (the
non-cancelled path of `loadReports`). -/
def applyResult (result : Except String (List ReportRow)) : LoaderState :=
  match result with
  | .error _ =>
    { reports := [], reportsError := some REPORTS_ERROR_MESSAGE
      reportsLoading := false }
  | .ok data =>
    { reports := activeReports data, reportsError := none
      reportsLoading := false }

/-! ### Fetch cancellation (the `isCancelled` flag of the effect)

Each run of the report effect that starts a fetch is one *generation*:
it captures a fresh `isCancelled` flag, and its cleanup (run by React
before the next effect run or on unmount) sets that flag.  A resolving
response first checks its own generation's flag and returns without
touching state when it is set. -/

/-- The effect system state: the currently selected road, the road id of
each started fetch generation, each generation's cancellation flag, and
the loader state. -/
structure FetchSys where
  selectedRoadId : Option String
  gens : List String
  cancelled : List Bool
  loader : LoaderState
deriving DecidableEq, Repr

/-- Initial state: nothing selected, no fetch started. -/
def initFetchSys : FetchSys :=
  { selectedRoadId := none, gens := [], cancelled := []
    loader := { reports := [], reportsError := none, reportsLoading := false } }

/-- Cleanup of the previous effect run: set the latest generation's
`isCancelled` flag (no-op when no fetch was ever started). -/
def cancelLatest (c : List Bool) : List Bool :=
  if c.isEmpty then c else c.set (c.length - 1) true

/-- Events of the report-fetch system: the selected road changes to a
new road (a fetch starts), the selection is cleared (the effect's
early-return branch), or the fetch of generation `g` resolves. -/
inductive FetchEv where
  | select (roadId : String)
  | clear
  | resolve (g : Nat) (result : Except String (List ReportRow))

/-- One step of the report-fetch system, following the effect body. -/
def fetchStep (ev : FetchEv) (s : FetchSys) : FetchSys :=
  match ev with
  | .select roadId =>
    { selectedRoadId := some roadId
      gens := s.gens ++ [roadId]
      cancelled := cancelLatest s.cancelled ++ [false]
      loader := { reports := s.loader.reports, reportsError := none
                  reportsLoading := true } }
  | .clear =>
    { selectedRoadId := none
      gens := s.gens
      cancelled := cancelLatest s.cancelled
      loader := { reports := [], reportsError := none
                  reportsLoading := false } }
  | .resolve g result =>
    if s.cancelled.getD g true then s
    else { s with loader := applyResult result }

/-- States reachable from the initial fetch state. -/
inductive FetchReach : FetchSys → Prop where
  | init : FetchReach initFetchSys
  | step (ev : FetchEv) {s : FetchSys} : FetchReach s → FetchReach (fetchStep ev s)

/-- Invariant of the fetch system: flags and generations are in
bijection, and a generation whose flag is still clear is the latest one
and belongs to the currently selected road. -/
def FetchInv (s : FetchSys) : Prop :=
  s.cancelled.length = s.gens.length ∧
  ∀ g, s.cancelled.getD g true = false →
    g + 1 = s.gens.length ∧ s.selectedRoadId = some (s.gens.getD g "")

/-! ### Fetch-system lemmas -/

theorem cancelLatest_length (c : List Bool) :
    (cancelLatest c).length = c.length := by
  unfold cancelLatest
  split <;> simp

theorem cancelLatest_getD_of_ne (c : List Bool) (g : Nat)
    (h : g ≠ c.length - 1) : (cancelLatest c).getD g true = c.getD g true := by
  unfold cancelLatest
  split
  · rfl
  · simp [List.getD, List.getElem?_set_ne (fun hc => h hc.symm)]

theorem cancelLatest_getD_last (c : List Bool) (h : c ≠ []) :
    (cancelLatest c).getD (c.length - 1) true = true := by
  unfold cancelLatest
  have hlen : c.length - 1 < c.length := by
    cases c with
    | nil => exact absurd rfl h
    | cons a t => simp
  simp [List.isEmpty_iff, h, List.getD, List.getElem?_set_self hlen]

theorem cancelLatest_getD_true (c : List Bool) (g : Nat)
    (hc : (cancelLatest c).getD g true = false) : c.getD g true = false ∧ g ≠ c.length - 1 := by
  by_cases hg : g = c.length - 1
  · subst hg
    by_cases hnil : c = []
    · subst hnil
      simp [cancelLatest] at hc
    · rw [cancelLatest_getD_last c hnil] at hc
      exact absurd hc (by simp)
  · rw [cancelLatest_getD_of_ne c g hg] at hc
    exact ⟨hc, hg⟩

theorem getD_append_left' {α : Type} (l₁ l₂ : List α) (g : Nat) (d : α)
    (h : g < l₁.length) : (l₁ ++ l₂).getD g d = l₁.getD g d := by
  simp [List.getD, List.getElem?_append_left h]

theorem getD_append_right' {α : Type} (l₁ l₂ : List α) (g : Nat) (d : α)
    (h : l₁.length ≤ g) : (l₁ ++ l₂).getD g d = l₂.getD (g - l₁.length) d := by
  simp [List.getD, List.getElem?_append_right h]

theorem fetchInv_init : FetchInv initFetchSys := by
  constructor
  · rfl
  · intro g hg
    simp [initFetchSys, List.getD] at hg

theorem fetchInv_step (ev : FetchEv) (s : FetchSys) (h : FetchInv s) :
    FetchInv (fetchStep ev s) := by
  obtain ⟨hlen, hflags⟩ := h
  cases ev with
  | select roadId =>
    constructor
    · simp [fetchStep, cancelLatest_length, hlen]
    · intro g hg
      simp only [fetchStep] at hg ⊢
      by_cases hlt : g < (cancelLatest s.cancelled).length
      · rw [getD_append_left' _ _ _ _ hlt] at hg
        have hg' := cancelLatest_getD_true s.cancelled g hg
        have := hflags g hg'.1
        rw [cancelLatest_length] at hlt
        omega
      · push_neg at hlt
        rw [getD_append_right' _ _ _ _ hlt] at hg
        rw [cancelLatest_length] at hlt hg
        have hzero : g - s.cancelled.length = 0 := by
          by_contra hne
          cases hk : g - s.cancelled.length with
          | zero => exact hne hk
          | succ n =>
            rw [hk] at hg
            simp [List.getD] at hg
        have hgeq : g = s.cancelled.length := by omega
        subst hgeq
        rw [hlen]
        refine ⟨by simp, ?_⟩
        rw [getD_append_right' _ _ _ _ (by omega)]
        simp
  | clear =>
    constructor
    · simp [fetchStep, cancelLatest_length, hlen]
    · intro g hg
      simp only [fetchStep] at hg ⊢
      have hg' := cancelLatest_getD_true s.cancelled g hg
      have := hflags g hg'.1
      rw [hlen] at hg'
      omega
  | resolve g result =>
    simp only [fetchStep]
    split
    · exact ⟨hlen, hflags⟩
    · exact ⟨hlen, hflags⟩

theorem fetchReach_inv {s : FetchSys} (h : FetchReach s) : FetchInv s := by
  induction h with
  | init => exact fetchInv_init
  | step ev hs ih => exact fetchInv_step ev _ ih

/-! ## Interaction state of the admin `Maps` page (`Maps.tsx`)

The page keeps its interaction state in refs and React state:
`hoveredRoadIdRef`, `selectedRoadIdRef`, `searchTermRef`/`searchTerm`,
`activeRoad`, the `roads-highlight` layer's id filter (modelled as
`highlight`, `none` for the empty-string filter), the report loader
triple, and the canvas cursor.  The monolithic page has no highlight
suppression mechanism: no transition ever suppresses a selection's
highlight. -/
structure MapsState where
  hoveredRoadId : Option String
  selectedRoadId : Option String
  searchTerm : String
  activeRoad : Option RoadRow
  highlight : Option String
  reports : List ReportRow
  reportsError : Option String
  reportsLoading : Bool
  cursorPointer : Bool
deriving DecidableEq, Repr

/-- The page's initial interaction state. -/
def initMapsState : MapsState :=
  { hoveredRoadId := none, selectedRoadId := none, searchTerm := ""
    activeRoad := none, highlight := none, reports := []
    reportsError := none, reportsLoading := false, cursorPointer := false }

/-- The synchronous part of the report-loading effect, run when
`activeRoad?.id` changes: clear the loader when no road is active (or
the active road is not the selected one), otherwise start loading. -/
def reportsEffectSync (st : MapsState) : MapsState :=
  match st.activeRoad with
  | none =>
    { st with reports := [], reportsError := none, reportsLoading := false }
  | some road =>
    if st.selectedRoadId = some (normalizeId road.id) then
      { st with reportsError := none, reportsLoading := true }
    else
      { st with reports := [], reportsError := none, reportsLoading := false }

/-- Run the report effect only when its dependency (`activeRoad?.id`)
actually changed between the old and new state. -/
def withReportsEffect (old st : MapsState) : MapsState :=
  if st.activeRoad.map (·.id) = old.activeRoad.map (·.id) then st
  else reportsEffectSync st

/-- The `mousemove` handler on the `roads-hit` layer: with a selection
present, re-assert the selection's highlight and stop; otherwise follow
the hovered feature. -/
def mousemoveRoadsHit (featureId : String) (st : MapsState) : MapsState :=
  match st.selectedRoadId with
  | some s => { st with highlight := some s, cursorPointer := true }
  | none =>
    let fid := normalizeId featureId
    if st.hoveredRoadId = some fid then { st with cursorPointer := true }
    else
      { st with hoveredRoadId := some fid, highlight := some fid
                cursorPointer := true }

/-- The `click` handler on the `roads-hit` layer: select and hover the
clicked feature, fill the search input with its label, lock the
highlight to it, and (when the row is found in the directory) make it
the active road. -/
def clickRoadsHit (roads : List RoadRow) (featureId : String)
    (featureName featureHighway : Option String) (st : MapsState) : MapsState :=
  let fid := normalizeId featureId
  let name := featureName.getD ""
  let highway := featureHighway.getD ""
  let nextValue := if name ≠ "" then name else if highway ≠ "" then highway else fid
  let road := roads.find? (fun item => normalizeId item.id = fid)
  let st' :=
    { st with selectedRoadId := some fid
              hoveredRoadId := some fid
              searchTerm := nextValue
              activeRoad := match road with
                | some r => some r
                | none => st.activeRoad
              highlight := some fid }
  withReportsEffect st st'

/-- Function `resetHoverState`, run on `mouseleave`: with no selection and an
empty search input, drop hover, active road, and highlight; with a
selection, re-assert its highlight; always reset the cursor. -/
def mouseleaveRoadsHit (st : MapsState) : MapsState :=
  let st' :=
    if jsTrim st.searchTerm = "" ∧ st.selectedRoadId = none then
      { st with hoveredRoadId := none, activeRoad := none, highlight := none
                cursorPointer := false }
    else
      match st.selectedRoadId with
      | some s => { st with highlight := some s, cursorPointer := false }
      | none => { st with cursorPointer := false }
  withReportsEffect st st'

/-- Function `focusRoad`: no-op for a geometry-less road or empty coordinates;
otherwise select, hover, activate, and highlight the road (plus a
viewport fit, which has no model state). -/
def focusRoad (st : MapsState) (road : RoadRow) : MapsState :=
  match road.geom with
  | none => st
  | some g =>
    if extractCoordinates (some g) = [] then st
    else
      { st with hoveredRoadId := some (normalizeId road.id)
                selectedRoadId := some (normalizeId road.id)
                activeRoad := some road
                highlight := some (normalizeId road.id) }

/-- Function `handleSelectRoad` (search pick): focus the road, then overwrite the
search input with the road's name. -/
def handleSelectRoad (st : MapsState) (road : RoadRow) : MapsState :=
  let st1 := focusRoad st road
  withReportsEffect st { st1 with searchTerm := road.name.getD "" }

/-- The detail-panel close button: `selectedRoadIdRef.current = null;
setActiveRoad(null)`, after which the report effect re-runs and clears
the loader.  Nothing else is touched — in particular no highlight
command is issued. -/
def closeDetail (st : MapsState) : MapsState :=
  withReportsEffect st { st with selectedRoadId := none, activeRoad := none }

/-- Interaction states reachable from the initial page state. -/
inductive MapsReach : MapsState → Prop where
  | init : MapsReach initMapsState
  | mousemove (featureId : String) {st : MapsState} :
      MapsReach st → MapsReach (mousemoveRoadsHit featureId st)
  | click (roads : List RoadRow) (featureId : String)
      (featureName featureHighway : Option String) {st : MapsState} :
      MapsReach st → MapsReach (clickRoadsHit roads featureId featureName featureHighway st)
  | mouseleave {st : MapsState} : MapsReach st → MapsReach (mouseleaveRoadsHit st)
  | select (road : RoadRow) {st : MapsState} :
      MapsReach st → MapsReach (handleSelectRoad st road)
  | close {st : MapsState} : MapsReach st → MapsReach (closeDetail st)

/-- Hover/selection/highlight consistency: with no selection the
highlight tracks the hovered id; with a selection both hover and
highlight sit on the selected id. -/
def MapsInv (st : MapsState) : Prop :=
  (st.selectedRoadId = none → st.hoveredRoadId.isSome →
    st.highlight = st.hoveredRoadId) ∧
  (st.selectedRoadId.isSome →
    st.hoveredRoadId = st.selectedRoadId ∧ st.highlight = st.selectedRoadId)

instance (st : MapsState) : Decidable (MapsInv st) := by
  unfold MapsInv
  infer_instance

theorem reportsEffectSync_frame (st : MapsState) :
    (reportsEffectSync st).hoveredRoadId = st.hoveredRoadId ∧
    (reportsEffectSync st).selectedRoadId = st.selectedRoadId ∧
    (reportsEffectSync st).highlight = st.highlight ∧
    (reportsEffectSync st).searchTerm = st.searchTerm ∧
    (reportsEffectSync st).activeRoad = st.activeRoad := by
  unfold reportsEffectSync
  cases st.activeRoad
  case none => simp
  case some road =>
    simp only
    split <;> simp

theorem withReportsEffect_frame (old st : MapsState) :
    (withReportsEffect old st).hoveredRoadId = st.hoveredRoadId ∧
    (withReportsEffect old st).selectedRoadId = st.selectedRoadId ∧
    (withReportsEffect old st).highlight = st.highlight ∧
    (withReportsEffect old st).searchTerm = st.searchTerm ∧
    (withReportsEffect old st).activeRoad = st.activeRoad := by
  unfold withReportsEffect
  split
  · exact ⟨rfl, rfl, rfl, rfl, rfl⟩
  · exact reportsEffectSync_frame st

theorem mapsInv_of_frame {st st' : MapsState}
    (h : st'.hoveredRoadId = st.hoveredRoadId ∧
      st'.selectedRoadId = st.selectedRoadId ∧
      st'.highlight = st.highlight ∧
      st'.searchTerm = st.searchTerm ∧
      st'.activeRoad = st.activeRoad)
    (hinv : MapsInv st) : MapsInv st' := by
  obtain ⟨h1, h2, h3, _, _⟩ := h
  unfold MapsInv at hinv ⊢
  rw [h1, h2, h3]
  exact hinv

theorem mapsInv_mousemove (featureId : String) (st : MapsState)
    (h : MapsInv st) : MapsInv (mousemoveRoadsHit featureId st) := by
  obtain ⟨inone, isome⟩ := h
  cases hsel : st.selectedRoadId with
  | some s =>
    have hhov := isome (by simp [hsel])
    rw [hsel] at hhov
    simp only [mousemoveRoadsHit, hsel, MapsInv]
    refine ⟨by intro hc; simp at hc, ?_⟩
    intro _
    simp [hhov.1, hsel]
  | none =>
    simp only [mousemoveRoadsHit, hsel, MapsInv]
    by_cases hh : st.hoveredRoadId = some (normalizeId featureId)
    · rw [if_pos hh]
      refine ⟨?_, by intro hc; simp [hsel] at hc⟩
      intro _ _
      exact inone hsel (by simp [hh])
    · rw [if_neg hh]
      exact ⟨by intro _ _; rfl, by intro hc; simp [hsel] at hc⟩

theorem mapsInv_click (roads : List RoadRow) (featureId : String)
    (featureName featureHighway : Option String) (st : MapsState)
    (_h : MapsInv st) :
    MapsInv (clickRoadsHit roads featureId featureName featureHighway st) := by
  apply mapsInv_of_frame (withReportsEffect_frame _ _)
  exact ⟨by intro hc; simp at hc, by intro _; exact ⟨rfl, rfl⟩⟩

theorem mapsInv_mouseleave (st : MapsState) (h : MapsInv st) :
    MapsInv (mouseleaveRoadsHit st) := by
  obtain ⟨inone, isome⟩ := h
  refine mapsInv_of_frame (withReportsEffect_frame st _) ?_
  by_cases hcond : jsTrim st.searchTerm = "" ∧ st.selectedRoadId = none
  · rw [if_pos hcond]
    exact ⟨by intro _ hh; simp at hh, by intro hc; simp [hcond.2] at hc⟩
  · rw [if_neg hcond]
    cases hsel : st.selectedRoadId with
    | some s =>
      have hhov := isome (by simp [hsel])
      rw [hsel] at hhov
      refine ⟨by intro hc; simp [hsel] at hc, ?_⟩
      intro _
      exact ⟨by simpa [hsel] using hhov.1, by simp [hsel]⟩
    | none =>
      exact ⟨fun hs hh => inone hsel hh, fun hc => by simp [hsel] at hc⟩

theorem mapsInv_searchTerm (st : MapsState) (t : String) (h : MapsInv st) :
    MapsInv { st with searchTerm := t } := ⟨h.1, h.2⟩

theorem mapsInv_select (road : RoadRow) (st : MapsState) (h : MapsInv st) :
    MapsInv (handleSelectRoad st road) := by
  refine mapsInv_of_frame (withReportsEffect_frame st _) ?_
  refine mapsInv_searchTerm _ _ ?_
  unfold focusRoad
  cases hg : road.geom with
  | none => exact h
  | some g =>
    dsimp only
    by_cases hc : extractCoordinates (some g) = []
    · rw [if_pos hc]
      exact h
    · rw [if_neg hc]
      exact ⟨by intro hx; simp at hx, by intro _; exact ⟨rfl, rfl⟩⟩

theorem mapsInv_close (st : MapsState) (h : MapsInv st) :
    MapsInv (closeDetail st) := by
  apply mapsInv_of_frame (withReportsEffect_frame _ _)
  obtain ⟨inone, isome⟩ := h
  refine ⟨?_, by intro hc; simp at hc⟩
  intro _ hh
  simp only at hh ⊢
  cases hsel : st.selectedRoadId with
  | none => exact inone hsel hh
  | some s =>
    have hhov := isome (by simp [hsel])
    rw [hsel] at hhov
    rw [hhov.1, hhov.2]

theorem mapsReach_inv {st : MapsState} (h : MapsReach st) : MapsInv st := by
  induction h with
  | init =>
    exact ⟨by intro _ hh; simp [initMapsState] at hh,
      by intro hh; simp [initMapsState] at hh⟩
  | mousemove featureId hs ih => exact mapsInv_mousemove _ _ ih
  | click roads featureId featureName featureHighway hs ih =>
    exact mapsInv_click _ _ _ _ _ ih
  | mouseleave hs ih => exact mapsInv_mouseleave _ ih
  | select road hs ih => exact mapsInv_select _ _ ih
  | close hs ih => exact mapsInv_close _ ih

/-! ## Interaction & Focus Coordinator (modular map page)

The modular map page component — the coordinator that owns
`highlightSuppressed`, the active report id, and the filter-change
synchronization — is not part of the source tree; only its
collaborators (`useFilters`, `useReports`, `DetailPanel`,
`mapHelpers`) are.  Its filter-change transition is therefore modelled
from the spec. -/

/-- The coordinator's `InteractionState` (spec §3), extended with the
active report id and the rendered highlight it commands. -/
structure InteractionState where
  hoveredId : Option String
  selectedId : Option String
  highlightSuppressed : Bool
  searchTerm : String
  activeReportId : Option Int
  highlight : Option String
deriving DecidableEq, Repr

/-- Modelled from the spec: the coordinator's filter-change transition
(spec §4.8 rule 5).  The map page component that reacts to
`useFilters.filteredRoads` recomputations is missing from the source
tree; per the spec, when the selected road is no longer in the visible
subset the coordinator clears selection, active report, and
suppression, and issues a highlight-clear.  The visible subset itself
is the real `filteredRoads` of `useFilters`. -/
def applyFilterChange (roads : List RoadRow) (filters : RoadFilters)
    (st : InteractionState) : InteractionState :=
  let visibleIds := (filteredRoads roads filters).map (fun r => normalizeId r.id)
  match st.selectedId with
  | none => st
  | some s =>
    if visibleIds.contains s then st
    else
      { st with selectedId := none, activeReportId := none
                highlightSuppressed := false, highlight := none }

/-! ## Concrete fixtures used by witnesses and counterexamples -/

/-- A road row with every optional field absent. -/
def emptyRoad : RoadRow :=
  { id := "", geom := none, highway := none, name := none, props := none
    osm_id := none, kota := none, kecamatan := none, kelurahan := none
    tipe_jalan := none, rt := none, rw := none, lingkungan := none
    condition := none, status := none, length := none, width := none }

/-- Road "1" (`Jl. A`), good condition, active status. -/
def roadA : RoadRow :=
  { emptyRoad with
    id := "1"
    name := some "Jl. A"
    geom := some (.lineString [(0, 0), (1, 1)])
    condition := some "good"
    status := some "active" }

/-- Road "2" (`Jl. B`), maintenance status. -/
def roadB : RoadRow :=
  { emptyRoad with
    id := "2"
    name := some "Jl. B"
    geom := some (.lineString [(2, 2), (3, 3)])
    condition := some "severe damage"
    status := some "maintenance" }

/-- A road with no status and no geometry. -/
def roadNoStatus : RoadRow :=
  { emptyRoad with id := "3", name := some "Jl. C" }

/-- A road whose `props` object carries its own `id` key. -/
def roadPropsId : RoadRow :=
  { emptyRoad with
    id := "7"
    geom := some (.lineString [(0, 0)])
    props := some [("id", JVal.str "999")] }

/-- A filter state selecting only status `active`. -/
def statusActiveFilters : RoadFilters :=
  { createInitialFilters with status := ["active"] }

/-- A pending report on road "1" (null status). -/
def reportNullStatus : ReportRow :=
  { id := 1, user_id := none, latitude := none, longitude := none
    kerusakan_level := some "berat", deskripsi := some "lubang"
    status := none, foto := none, kontak_pelapor := none
    created_at := none, updated_at := none, road_id := some "1" }

/-- A finished report on road "1" (status done). -/
def reportDone : ReportRow :=
  { reportNullStatus with id := 2, status := some "done" }

/-- A page state with road "1" hovered, selected, highlighted, and
active (the state right after clicking road "1"). -/
def stSelected : MapsState :=
  { initMapsState with
    hoveredRoadId := some "1"
    selectedRoadId := some "1"
    highlight := some "1"
    activeRoad := some roadA
    searchTerm := "Jl. A" }

/-- A page state with road "1" merely hovered (no selection). -/
def stHovered : MapsState :=
  { initMapsState with hoveredRoadId := some "1", highlight := some "1" }

/-- A coordinator state with road "2" selected and a report active. -/
def coordSelected : InteractionState :=
  { hoveredId := some "2", selectedId := some "2", highlightSuppressed := false
    searchTerm := "Jl. B", activeReportId := some 5, highlight := some "2" }

/-- The fetch-system state after selecting road "1" and then road "2"
while neither fetch has resolved. -/
def fetchTrace2 : FetchSys :=
  fetchStep (.select "2") (fetchStep (.select "1") initFetchSys)

/-! ## Claim theorems -/

/-- C3: for every road list `R` and filter state `F`, `visibleRoads(R,F)`
is a sublist of `R`, and equals `R` exactly when no dimension has a
selected value. -/
theorem claim_C3_visibleRoads_subset (roads : List RoadRow) (F : RoadFilters) :
    (filteredRoads roads F).Sublist roads ∧
    (hasActiveFilters F = false → filteredRoads roads F = roads) := by
  rw [filteredRoads_eq_filter]
  refine ⟨List.filter_sublist roads, ?_⟩
  intro hF
  simp only [hasActiveFilters, Bool.or_eq_false_iff, Bool.not_eq_false',
    List.isEmpty_iff] at hF
  obtain ⟨⟨⟨⟨⟨⟨h1, h2⟩, h3⟩, h4⟩, h5⟩, h6⟩, h7⟩ := hF
  apply List.filter_eq_self.mpr
  intro r _
  simp [roadMatchesFilters, matchesSelected, h1, h2, h3, h4, h5, h6, h7]

/-- Witness for C3 at a concrete directory and the empty filter state. -/
theorem claim_C3_witness :
    (filteredRoads [roadA, roadB] createInitialFilters).Sublist [roadA, roadB] ∧
    filteredRoads [roadA, roadB] createInitialFilters = [roadA, roadB] :=
  ⟨(claim_C3_visibleRoads_subset [roadA, roadB] createInitialFilters).1,
   (claim_C3_visibleRoads_subset [roadA, roadB] createInitialFilters).2 (by decide)⟩

/-- C6: a road whose raw value for a dimension is null or normalizes to
the empty string fails that dimension's predicate whenever the dimension
has at least one selected value, and is excluded from the visible
subset. -/
theorem claim_C6_null_fails_constrained (roads : List RoadRow) (F : RoadFilters)
    (d : Dim) (r : RoadRow)
    (hraw : normalizeFilterValue (dimRaw d r) = "")
    (hsel : dimSelected d F ≠ []) :
    matchesSelected (dimSelected d F) (dimCandidate d r) = false ∧
    r ∉ filteredRoads roads F := by
  have hcand := dimCandidate_eq_none d r hraw
  have hms : matchesSelected (dimSelected d F) (dimCandidate d r) = false := by
    rw [hcand]
    exact matchesSelected_none_of_ne_nil _ hsel
  refine ⟨hms, ?_⟩
  rw [filteredRoads_eq_filter]
  intro hmem
  rw [List.mem_filter] at hmem
  have hfalse := roadMatchesFilters_false F d r hcand hsel
  rw [hfalse] at hmem
  exact absurd hmem.2 (by simp)

/-- Witness for C6: the status-less road against a status filter. -/
theorem claim_C6_witness :
    matchesSelected (dimSelected .status statusActiveFilters)
      (dimCandidate .status roadNoStatus) = false ∧
    roadNoStatus ∉ filteredRoads [roadA, roadNoStatus] statusActiveFilters :=
  claim_C6_null_fails_constrained [roadA, roadNoStatus] statusActiveFilters
    .status roadNoStatus (by decide) (by decide)

/-- C5: a successful road-scoped load filters out every `done` report
and stores no error; when every returned report is `done` (in
particular when none is returned) the stored list is empty. -/
theorem claim_C5_active_excludes_done (data : List ReportRow) :
    (∀ r ∈ activeReports data, r.status ≠ some "done") ∧
    (applyResult (Except.ok data)).reports = activeReports data ∧
    (applyResult (Except.ok data)).reportsError = none ∧
    ((∀ r ∈ data, r.status = some "done") → activeReports data = []) := by
  refine ⟨?_, rfl, rfl, ?_⟩
  · intro r hr hst
    rw [activeReports, List.mem_filter] at hr
    rw [hst] at hr
    exact absurd hr.2 (by simp)
  · intro hall
    rw [activeReports, List.filter_eq_nil_iff]
    intro r hr
    simp [hall r hr]

/-- Witness for C5: road "9" style input where the only report is done. -/
theorem claim_C5_witness :
    (∀ r ∈ activeReports [reportDone], r.status ≠ some "done") ∧
    activeReports [reportDone] = [] ∧
    (applyResult (Except.ok [reportDone])).reports = [] ∧
    (applyResult (Except.ok [reportDone])).reportsError = none := by
  have h := claim_C5_active_excludes_done [reportDone]
  have hdone : ∀ r ∈ [reportDone], r.status = some "done" := by decide
  refine ⟨h.1, h.2.2.2 hdone, ?_, h.2.2.1⟩
  rw [h.2.1]
  exact h.2.2.2 hdone

/-- C10: a report whose status field is null is treated as `pending` and
kept in the active-reports list. -/
theorem claim_C10_null_status_pending (r : ReportRow) (data : List ReportRow)
    (hmem : r ∈ data) (hstat : r.status = none) :
    r ∈ activeReports data ∧ r.status.getD "pending" = "pending" := by
  refine ⟨?_, by rw [hstat]; rfl⟩
  rw [activeReports, List.mem_filter]
  refine ⟨hmem, ?_⟩
  simp [hstat]

/-- Witness for C10 at a concrete null-status report. -/
theorem claim_C10_witness :
    reportNullStatus ∈ activeReports [reportNullStatus, reportDone] ∧
    reportNullStatus.status.getD "pending" = "pending" :=
  claim_C10_null_status_pending reportNullStatus [reportNullStatus, reportDone]
    (by decide) (by decide)

/-! ### Recency lemmas -/

theorem addRecentSearch_eq (road : RoadRow) (prev : List RecentSearchItem) :
    addRecentSearch road prev =
      recentEntry road ::
        (prev.filter (fun item => item.id ≠ (recentEntry road).id)).take 2 := by
  unfold addRecentSearch
  rw [List.take_succ_cons]

theorem filter_eq_of_filter_ne (prev : List RecentSearchItem) (i : String) :
    (prev.filter (fun item => item.id ≠ i)).filter (fun item => item.id = i)
      = [] := by
  rw [List.filter_eq_nil_iff]
  intro a ha
  rw [List.mem_filter] at ha
  simp only [decide_not, Bool.not_eq_eq_eq_not, Bool.not_true,
    decide_eq_false_iff_not] at ha
  simp [ha.2]

theorem addRecentSearch_count_self (road : RoadRow)
    (prev : List RecentSearchItem) :
    ((addRecentSearch road prev).filter
        (fun item => item.id = (recentEntry road).id)).length = 1 := by
  rw [addRecentSearch_eq]
  rw [List.filter_cons]
  have htail : (((prev.filter (fun item => item.id ≠ (recentEntry road).id)).take 2).filter
      (fun item => item.id = (recentEntry road).id)) = [] := by
    have h1 := List.Sublist.filter (fun item => item.id = (recentEntry road).id)
      (List.take_sublist 2 (prev.filter (fun item => item.id ≠ (recentEntry road).id)))
    rw [filter_eq_of_filter_ne] at h1
    exact List.sublist_nil.mp h1
  rw [htail]
  simp

theorem addRecentSearch_count_le (road : RoadRow) (prev : List RecentSearchItem)
    (hprev : ∀ i, (prev.filter (fun item => item.id = i)).length ≤ 1)
    (i : String) :
    ((addRecentSearch road prev).filter (fun item => item.id = i)).length ≤ 1 := by
  by_cases hi : (recentEntry road).id = i
  · subst hi
    rw [addRecentSearch_count_self]
  · rw [addRecentSearch_eq, List.filter_cons]
    have hhead : decide ((recentEntry road).id = i) = false := by simp [hi]
    rw [hhead]
    simp only [Bool.false_eq_true, if_false]
    have hchain :
        (((prev.filter (fun item => item.id ≠ (recentEntry road).id)).take 2).filter
            (fun item => item.id = i)).Sublist
          (prev.filter (fun item => item.id = i)) :=
      List.Sublist.filter _
        ((List.take_sublist 2 _).trans (List.filter_sublist prev))
    exact le_trans hchain.length_le (hprev i)

/-- C7: `addRecent` puts the road's entry first, removes prior entries
with the same id (preserving at-most-one-entry-per-id), caps the list at
3, and adding the same road twice leaves exactly one entry for its id,
positioned first. -/
theorem claim_C7_recency (road : RoadRow) (prev : List RecentSearchItem) :
    (addRecentSearch road prev).head? = some (recentEntry road) ∧
    (addRecentSearch road prev).length ≤ 3 ∧
    ((addRecentSearch road prev).filter
        (fun item => item.id = (recentEntry road).id)).length = 1 ∧
    ((∀ i, (prev.filter (fun item => item.id = i)).length ≤ 1) →
      ∀ i, ((addRecentSearch road prev).filter
        (fun item => item.id = i)).length ≤ 1) ∧
    (addRecentSearch road (addRecentSearch road prev)).head? =
      some (recentEntry road) ∧
    ((addRecentSearch road (addRecentSearch road prev)).filter
        (fun item => item.id = (recentEntry road).id)).length = 1 := by
  refine ⟨?_, ?_, addRecentSearch_count_self road prev,
    fun hprev i => addRecentSearch_count_le road prev hprev i, ?_,
    addRecentSearch_count_self road (addRecentSearch road prev)⟩
  · rw [addRecentSearch_eq]
    rfl
  · rw [addRecentSearch_eq]
    simp [List.length_take]
  · simp [addRecentSearch_eq road (addRecentSearch road prev)]

/-- Witness for C7: adding road "1" to an empty recency list, twice. -/
theorem claim_C7_witness :
    (addRecentSearch roadA []).head? = some (recentEntry roadA) ∧
    (addRecentSearch roadA []).length ≤ 3 ∧
    ((addRecentSearch roadA []).filter
        (fun item => item.id = (recentEntry roadA).id)).length = 1 ∧
    ((addRecentSearch roadA []).filter
        (fun item => item.id = "2")).length ≤ 1 ∧
    (addRecentSearch roadA (addRecentSearch roadA [])).head? =
      some (recentEntry roadA) ∧
    ((addRecentSearch roadA (addRecentSearch roadA [])).filter
        (fun item => item.id = (recentEntry roadA).id)).length = 1 := by
  have h := claim_C7_recency roadA []
  exact ⟨h.1, h.2.1, h.2.2.1, h.2.2.2.1 (by intro i; simp) "2",
    h.2.2.2.2.1, h.2.2.2.2.2⟩

/-! ### Feature-collection lemmas -/

theorem buildFeatureCollection_cons_none (r : RoadRow) (rest : List RoadRow)
    (hg : r.geom = none) :
    buildFeatureCollection (r :: rest) = buildFeatureCollection rest := by
  unfold buildFeatureCollection
  rw [List.filterMap_cons]
  simp [hg]

theorem buildFeatureCollection_cons_some (r : RoadRow) (rest : List RoadRow)
    (g : Geom) (hg : r.geom = some g) :
    buildFeatureCollection (r :: rest) =
      { id := normalizeId r.id, geometry := g
        properties := buildProperties r } :: buildFeatureCollection rest := by
  unfold buildFeatureCollection
  rw [List.filterMap_cons]
  simp [hg]

theorem props_no_id_of_all (r : RoadRow)
    (h : (r.props.getD []).all (fun p => p.1 ≠ "id")) :
    ∀ v, ("id", v) ∉ r.props.getD [] := by
  intro v hv
  have h2 := List.all_eq_true.mp h _ hv
  simp at h2

theorem propLookup_buildProperties_id (r : RoadRow)
    (hno : ∀ v, ("id", v) ∉ r.props.getD []) :
    propLookup (buildProperties r) "id" = some (.str (normalizeId r.id)) := by
  unfold propLookup buildProperties
  rw [List.filter_append]
  have h2 : (r.props.getD []).filter (fun p => p.1 = "id") = [] := by
    rw [List.filter_eq_nil_iff]
    rintro ⟨k, v⟩ hp hk
    simp only [decide_eq_true_eq] at hk
    subst hk
    exact hno v hp
  rw [h2, List.append_nil]
  simp

/-- C8 (amended): the coordinate-count round trip through
`buildFeatureCollection` and `extractCoordinates` holds, geometry-less
rows contribute no feature, every feature's id is the normalized road
id, and `properties.id` also equals it provided no row's `props` object
itself carries an `id` key (the literal spreads `props` last, so such a
key would shadow the duplicated id). -/
theorem claim_C8_feature_roundtrip (roads : List RoadRow) :
    ((buildFeatureCollection roads).map
        (fun f => (extractCoordinates (some f.geometry)).length)).sum =
      (roads.map (fun r => (extractCoordinates r.geom).length)).sum ∧
    (buildFeatureCollection roads).length =
      (roads.filter (fun r => r.geom.isSome)).length ∧
    (buildFeatureCollection roads).map (fun f => f.id) =
      (roads.filter (fun r => r.geom.isSome)).map (fun r => normalizeId r.id) ∧
    ((∀ r ∈ roads, (r.props.getD []).all (fun p => p.1 ≠ "id")) →
      ∀ f ∈ buildFeatureCollection roads,
        propLookup f.properties "id" = some (.str f.id)) := by
  induction roads with
  | nil =>
    refine ⟨rfl, rfl, rfl, ?_⟩
    intro _ f hf
    simp [buildFeatureCollection] at hf
  | cons r rest ih =>
    obtain ⟨ih1, ih2, ih3, ih4⟩ := ih
    cases hg : r.geom with
    | none =>
      rw [buildFeatureCollection_cons_none r rest hg]
      refine ⟨?_, ?_, ?_, ?_⟩
      · simp [hg, ih1]
      · simp [List.filter_cons, hg, ih2]
      · simp [List.filter_cons, hg, ih3]
      · intro hno f hf
        exact ih4 (fun r' hr' => hno r' (List.mem_cons_of_mem _ hr')) f hf
    | some g =>
      rw [buildFeatureCollection_cons_some r rest g hg]
      refine ⟨?_, ?_, ?_, ?_⟩
      · simp [hg, ih1]
      · simp [List.filter_cons, hg, ih2]
      · simp [List.filter_cons, hg, ih3]
      · intro hno f hf
        rw [List.mem_cons] at hf
        cases hf with
        | inl heq =>
          subst heq
          exact propLookup_buildProperties_id r
            (props_no_id_of_all r (hno r (List.mem_cons_self r rest)))
        | inr hmem =>
          exact ih4 (fun r' hr' => hno r' (List.mem_cons_of_mem _ hr'))
            f hmem

/-- C8 counterexample: a road whose `props` object carries an `id` key
yields a feature whose `properties.id` is the props value, not the
normalized road id — the claim as stated fails on this input. -/
theorem claim_C8_counterexample :
    ¬∀ f ∈ buildFeatureCollection [roadPropsId],
        propLookup f.properties "id" = some (.str f.id) := by decide

/-- The feature produced for road "1". -/
def featureA : Feature :=
  { id := "1", geometry := .lineString [(0, 0), (1, 1)]
    properties := buildProperties roadA }

/-- Witness for C8 on a two-row directory (one row geometry-less). -/
theorem claim_C8_witness :
    ((buildFeatureCollection [roadA, roadNoStatus]).map
        (fun f => (extractCoordinates (some f.geometry)).length)).sum =
      ([roadA, roadNoStatus].map
        (fun r => (extractCoordinates r.geom).length)).sum ∧
    (buildFeatureCollection [roadA, roadNoStatus]).length =
      ([roadA, roadNoStatus].filter (fun r => r.geom.isSome)).length ∧
    (buildFeatureCollection [roadA, roadNoStatus]).map (fun f => f.id) =
      ([roadA, roadNoStatus].filter (fun r => r.geom.isSome)).map
        (fun r => normalizeId r.id) ∧
    propLookup featureA.properties "id" = some (.str featureA.id) := by
  have h := claim_C8_feature_roundtrip [roadA, roadNoStatus]
  refine ⟨h.1, h.2.1, h.2.2.1, ?_⟩
  exact h.2.2.2 (by decide) featureA (by decide)

/-- C4: once a later fetch generation has started, or the selection no
longer points at a generation's road, resolving that generation is a
complete no-op — a superseded response is discarded and none of its
data reaches loader state.  (Contrapositive: any resolution that does
change state is for the latest generation of the currently selected
road.) -/
theorem claim_C4_stale_discarded (s : FetchSys) (hreach : FetchReach s)
    (g : Nat) (result : Except String (List ReportRow))
    (hstale : g + 1 ≠ s.gens.length ∨
      s.selectedRoadId ≠ some (s.gens.getD g "")) :
    fetchStep (.resolve g result) s = s := by
  have hinv := fetchReach_inv hreach
  simp only [fetchStep]
  by_cases hc : s.cancelled.getD g true = true
  · rw [if_pos hc]
  · have hc' : s.cancelled.getD g true = false := by
      revert hc
      cases s.cancelled.getD g true <;> simp
    have hlive := hinv.2 g hc'
    rcases hstale with h1 | h2
    · omega
    · exact absurd hlive.2 h2

/-- Witness for C4: select road "1", then road "2"; resolving the road
"1" fetch afterwards changes nothing. -/
theorem claim_C4_witness :
    fetchStep (.resolve 0 (Except.ok [reportNullStatus])) fetchTrace2 =
      fetchTrace2 :=
  claim_C4_stale_discarded fetchTrace2
    (FetchReach.step (.select "2") (FetchReach.step (.select "1") FetchReach.init))
    0 (Except.ok [reportNullStatus]) (Or.inl (by decide))

/-- C1: on the hover handler, an existing selection `S` always wins —
the rendered highlight stays `S` and is never set to a hovered `H ≠ S`
(the monolithic page has no suppression mechanism, so suppression is
always off); with no selection the highlight follows the hovered id. -/
theorem claim_C1_selection_wins (st : MapsState) (hinv : MapsInv st)
    (H S : String) :
    (st.selectedRoadId = some S →
      (mousemoveRoadsHit H st).highlight = some S ∧
      (H ≠ S → ¬(mousemoveRoadsHit H st).highlight = some H)) ∧
    (st.selectedRoadId = none →
      (mousemoveRoadsHit H st).highlight = some (normalizeId H) ∧
      (mousemoveRoadsHit H st).hoveredRoadId = some (normalizeId H)) := by
  constructor
  · intro hsel
    simp only [mousemoveRoadsHit, hsel]
    refine ⟨by simp, ?_⟩
    intro hne hcontra
    simp only [Option.some.injEq] at hcontra
    exact hne hcontra.symm
  · intro hsel
    simp only [mousemoveRoadsHit, hsel]
    by_cases hh : st.hoveredRoadId = some (normalizeId H)
    · rw [if_pos hh]
      have hfollow := hinv.1 hsel (by simp [hh])
      constructor
      · show st.highlight = some (normalizeId H)
        rw [hfollow, hh]
      · exact hh
    · rw [if_neg hh]
      exact ⟨rfl, rfl⟩

/-- Witness for C1: hovering road "2" with road "1" selected keeps the
highlight on "1"; hovering road "2" with no selection moves it to "2". -/
theorem claim_C1_witness :
    ((mousemoveRoadsHit "2" stSelected).highlight = some "1" ∧
      ¬(mousemoveRoadsHit "2" stSelected).highlight = some "2") ∧
    ((mousemoveRoadsHit "2" stHovered).highlight = some "2" ∧
      (mousemoveRoadsHit "2" stHovered).hoveredRoadId = some "2") := by
  have h1 := claim_C1_selection_wins stSelected (by decide) "2" "1"
  have h2 := claim_C1_selection_wins stHovered (by decide) "2" "1"
  exact ⟨⟨(h1.1 (by decide)).1, (h1.1 (by decide)).2 (by decide)⟩,
    h2.2 (by decide)⟩

/-- C9 (amended): the close button clears the selection and (through the
report effect) the active-report list and error, and leaves the hovered
id and search text untouched — but it does *not* clear the rendered
highlight: no highlight command is issued, so the highlight stays on the
previously selected road until a later hover-reset clears it. -/
theorem claim_C9_close_frame (st : MapsState) (road : RoadRow)
    (hactive : st.activeRoad = some road)
    (_hsel : st.selectedRoadId = some (normalizeId road.id)) :
    (closeDetail st).selectedRoadId = none ∧
    (closeDetail st).activeRoad = none ∧
    (closeDetail st).reports = [] ∧
    (closeDetail st).reportsError = none ∧
    (closeDetail st).reportsLoading = false ∧
    (closeDetail st).hoveredRoadId = st.hoveredRoadId ∧
    (closeDetail st).searchTerm = st.searchTerm ∧
    (closeDetail st).highlight = st.highlight := by
  unfold closeDetail withReportsEffect
  rw [if_neg (by simp [hactive])]
  unfold reportsEffectSync
  simp

/-- C9 counterexample: closing the detail panel from a state with road
"1" selected and highlighted leaves the rendered highlight on "1" — the
claim's "clears the rendered highlight" fails on the code. -/
theorem claim_C9_counterexample :
    stSelected.selectedRoadId.isSome ∧
    (closeDetail stSelected).highlight = some "1" ∧
    ¬(closeDetail stSelected).highlight = none := by decide

/-- Witness for C9 at the concrete selected state. -/
theorem claim_C9_witness :
    (closeDetail stSelected).selectedRoadId = none ∧
    (closeDetail stSelected).activeRoad = none ∧
    (closeDetail stSelected).reports = [] ∧
    (closeDetail stSelected).reportsError = none ∧
    (closeDetail stSelected).reportsLoading = false ∧
    (closeDetail stSelected).hoveredRoadId = stSelected.hoveredRoadId ∧
    (closeDetail stSelected).searchTerm = stSelected.searchTerm ∧
    (closeDetail stSelected).highlight = stSelected.highlight :=
  claim_C9_close_frame stSelected roadA (by decide) (by decide)

/-- C2 (spec-modelled coordinator transition over the real
`filteredRoads`): when the selected road id is not among the visible
roads after a filter change, the coordinator clears selection, active
report, and suppression, and issues a highlight-clear. -/
theorem claim_C2_filter_clears_selection (roads : List RoadRow)
    (F : RoadFilters) (st : InteractionState) (S : String)
    (hsel : st.selectedId = some S)
    (hout : S ∉ (filteredRoads roads F).map (fun r => normalizeId r.id)) :
    (applyFilterChange roads F st).selectedId = none ∧
    (applyFilterChange roads F st).activeReportId = none ∧
    (applyFilterChange roads F st).highlightSuppressed = false ∧
    (applyFilterChange roads F st).highlight = none := by
  unfold applyFilterChange
  simp only [hsel]
  rw [if_neg (by simpa using hout)]
  exact ⟨rfl, rfl, rfl, rfl⟩

/-- Witness for C2: road "2" selected, then a status filter that keeps
only road "1". -/
theorem claim_C2_witness :
    (applyFilterChange [roadA, roadB] statusActiveFilters
      coordSelected).selectedId = none ∧
    (applyFilterChange [roadA, roadB] statusActiveFilters
      coordSelected).activeReportId = none ∧
    (applyFilterChange [roadA, roadB] statusActiveFilters
      coordSelected).highlightSuppressed = false ∧
    (applyFilterChange [roadA, roadB] statusActiveFilters
      coordSelected).highlight = none :=
  claim_C2_filter_clears_selection [roadA, roadB] statusActiveFilters
    coordSelected "2" (by decide) (by decide)

end Jalan
